import Mathlib

/-!
Verification of the echobench TCP load generator (src/src/main.rs).

The program spawns `number` worker threads; each worker connects to the
target address, then loops: check the shared stop flag, write a
`length`-byte payload ending in a newline, read exactly `length` bytes
back, and increment its counter.  The driver sleeps `duration` seconds,
stores `true` into the stop flag, joins every worker, reduces the
`(count, err)` pairs by pairwise addition, and prints a summary whose
speed figure is `n_req / duration` (integer division).

The definitions below are a shallow embedding of that code: worker I/O is
driven by an explicit trace of events, fallible steps return `Option`,
and machine integers become `Nat` (no arithmetic here can overflow the
relevant widths on the traces we quantify over).
-/

/-- Result of one socket operation (`write_all` or `read_exact`):
either it fully succeeds or it returns an error. -/
inductive SockResult where
  | ok : SockResult
  | err : SockResult
deriving DecidableEq

/-- One iteration of the worker loop as the worker observes it:
the value the stop-flag load returns at the top of the iteration, then
the results of the `write_all` and `read_exact` calls of that iteration
(main.rs lines 120-131). -/
structure LoopStep where
  stopNow : Bool
  writeRes : SockResult
  readRes : SockResult
deriving DecidableEq

/-- The worker loop of main.rs lines 120-132, driven by a finite trace of
iteration events.  `count` is the local request counter.  The result pair
is `(count, err)` exactly as the Rust closure returns it: `(count, 1)` on
a write or read error, `(count, 0)` when the loop exits because the stop
flag read `true`.  An exhausted trace means the worker is still looping
(or blocked in a socket call), so no outcome exists yet: `none`. -/
def runWorker : List LoopStep → Nat → Option (Nat × Nat)
  | [], _ => none
  | s :: rest, count =>
    if s.stopNow then some (count, 0)
    else if s.writeRes = SockResult.err then some (count, 1)
    else if s.readRes = SockResult.err then some (count, 1)
    else runWorker rest (count + 1)

/-- A loop iteration that completes a full round trip and continues:
the stop flag read `false` and both socket calls succeeded. -/
def goodStep (s : LoopStep) : Prop :=
  s.stopNow = false ∧ s.writeRes = SockResult.ok ∧ s.readRes = SockResult.ok

instance (s : LoopStep) : Decidable (goodStep s) := by
  unfold goodStep; infer_instance

/-- The environment of one worker thread: whether `TcpStream::connect`
succeeds (main.rs line 118; on failure the `.unwrap()` panics the thread)
and, if it does, the trace of loop iterations the network delivers. -/
structure WorkerEnv where
  connectOk : Bool
  trace : List LoopStep

/-- Run one worker in its environment.  `none` means the worker produced
no outcome: its connect `.unwrap()` panicked, or it never left the loop. -/
def runWorkerEnv (env : WorkerEnv) : Option (Nat × Nat) :=
  if env.connectOk then runWorker env.trace 0 else none

/-- The driver's fold over joined worker results (main.rs lines 141-145):
`Iterator::reduce` with pairwise addition, i.e. the first outcome seeds a
left fold over the rest; on an empty collection `reduce` yields `None`
and the `.unwrap()` panics. -/
def reduceOutcomes : List (Nat × Nat) → Option (Nat × Nat)
  | [] => none
  | x :: xs => some (xs.foldl (fun a c => (a.1 + c.1, a.2 + c.2)) x)

/-- The printed summary (main.rs lines 147-154): the interpolated fields
of the `println!`. -/
structure Summary where
  address : String
  clients : Nat
  payloadLen : Nat
  duration : Nat
  errors : Nat
  speed : Nat
deriving DecidableEq

/-- The reporting step: `n_req / duration` is `u64` division, which
panics when `duration = 0`, so no summary exists in that case. -/
def mkSummary (address : String) (clients payloadLen duration nReq nErr : Nat) :
    Option Summary :=
  if duration = 0 then none
  else some ⟨address, clients, payloadLen, duration, nErr, nReq / duration⟩

/-- Join the spawned workers in order (main.rs line 143): if any join
delivers a panic — a worker whose connect `.unwrap()` fired — the
driver's own `.unwrap()` aborts `main`, hence `none`. -/
def joinAll : List WorkerEnv → Option (List (Nat × Nat))
  | [] => some []
  | env :: rest => do
    let o ← runWorkerEnv env
    let os ← joinAll rest
    pure (o :: os)

/-- The whole run after config resolution: join every worker, reduce the
outcomes, and print the summary; `none` at any stage means the process
aborted and no summary was printed. -/
def runBench (address : String) (payloadLen duration : Nat)
    (envs : List WorkerEnv) : Option Summary := do
  let outs ← joinAll envs
  let agg ← reduceOutcomes outs
  mkSummary address envs.length payloadLen duration agg.1 agg.2

/-- The stop flag's `store(true, Relaxed)` (main.rs line 139) as a state
transformer on the flag value. -/
def triggerStop : Bool → Bool := fun _ => true

/-- `matches.opt_str("address").unwrap_or_else(|| "127.0.0.1:8901")`
(main.rs lines 82-84). -/
def resolveAddress (arg : Option String) : String :=
  arg.getD "127.0.0.1:8901"

/-- The help text for `-a` (`--address`) (main.rs line 31). -/
def addressHelpText : String :=
  "Target echo server address. Default: 127.0.0.1:12345"

/-- `str::parse::<u64>` on the argument strings considered here: fails
on the empty string and on any non-digit character, otherwise yields the
decimal value (a leading `+` sign and the u64 overflow bound are not
modelled). -/
def parseNat (s : String) : Option Nat :=
  match s.data with
  | [] => none
  | cs =>
    if cs.all Char.isDigit then
      some (cs.foldl (fun n c => n * 10 + (c.toNat - 48)) 0)
    else none

/-- `opt_str(..).unwrap_or_default().parse::<u64>().unwrap_or(60)` for
`-t` (`--duration`) (main.rs lines 72-76): an absent or unparsable
argument silently falls back to 60. -/
def resolveDuration (arg : Option String) : Nat :=
  (parseNat (arg.getD "")).getD 60

/-- Same resolution for `-l` (`--length`), default 512 (main.rs lines 67-71). -/
def resolveLength (arg : Option String) : Nat :=
  (parseNat (arg.getD "")).getD 512

/-- Same resolution for `-c` (`--number`), default 50 (main.rs lines 77-81). -/
def resolveNumber (arg : Option String) : Nat :=
  (parseNat (arg.getD "")).getD 50

/-- The outbound payload (main.rs lines 115-116): a `length`-byte zero
buffer whose last byte is set to `b'\n'` (byte 10). -/
def payload (length : Nat) : List Nat :=
  (List.replicate length 0).set (length - 1) 10

/-- `Write::write_all` against a connection that accepts `cap` bytes
before failing: the whole buffer is written, or the call errors. -/
def writeAll (cap : Nat) (buf : List Nat) : Option Nat :=
  if buf.length ≤ cap then some buf.length else none

/-- `Read::read_exact` for a `len`-byte buffer against a reply of `avail`
bytes: exactly `len` bytes are read, or (reply shorter than the buffer)
the call errors. -/
def readExact (avail len : Nat) : Option Nat :=
  if len ≤ avail then some len else none

-- ### Helper lemmas

/-- The driver's left fold accumulates componentwise sums. -/
lemma foldl_pairSum (xs : List (Nat × Nat)) (a : Nat × Nat) :
    xs.foldl (fun a c => (a.1 + c.1, a.2 + c.2)) a
      = (a.1 + (xs.map Prod.fst).sum, a.2 + (xs.map Prod.snd).sum) := by
  induction xs generalizing a with
  | nil => simp
  | cons x xs ih =>
    simp only [List.foldl_cons, ih, List.map_cons, List.sum_cons]
    exact Prod.ext (by ring) (by ring)

/-- On a nonempty outcome list the reduction yields the componentwise
sums. -/
lemma reduceOutcomes_eq_sums (l : List (Nat × Nat)) (h : l ≠ []) :
    reduceOutcomes l = some ((l.map Prod.fst).sum, (l.map Prod.snd).sum) := by
  cases l with
  | nil => exact absurd rfl h
  | cons x xs =>
    simp only [reduceOutcomes, foldl_pairSum, List.map_cons, List.sum_cons]

/-- A worker's error component is always 0 or 1. -/
lemma runWorker_err_le_one (t : List LoopStep) (c n e : Nat)
    (h : runWorker t c = some (n, e)) : e ≤ 1 := by
  induction t generalizing c with
  | nil => simp [runWorker] at h
  | cons s rest ih =>
    simp only [runWorker] at h
    split at h
    · cases h; exact Nat.zero_le 1
    · split at h
      · cases h; exact Nat.le_refl 1
      · split at h
        · cases h; exact Nat.le_refl 1
        · exact ih _ h

/-- Running the loop past a prefix of completed round trips advances the
counter by the prefix length. -/
lemma runWorker_append_good (pre : List LoopStep) (t : List LoopStep)
    (c : Nat) (hpre : ∀ x ∈ pre, goodStep x) :
    runWorker (pre ++ t) c = runWorker t (c + pre.length) := by
  induction pre generalizing c with
  | nil => simp
  | cons s rest ih =>
    have hs : goodStep s := hpre s (List.mem_cons_self s rest)
    obtain ⟨h1, h2, h3⟩ := hs
    have htail : ∀ x ∈ rest, goodStep x :=
      fun x hx => hpre x (List.mem_cons_of_mem s hx)
    simp [runWorker, h1, h2, h3, ih (c + 1) htail]
    congr 1
    omega

/-- Claim C1: when all workers are joined, the reduction of their
outcomes is the pairwise sum: totalRequests is the sum of the request
counters and totalErrors is the sum over workers of 1 if the worker
failed, else 0. -/
theorem aggregate_sums_outcomes (outs : List (Nat × Bool)) (h : outs ≠ []) :
    reduceOutcomes (outs.map fun o => (o.1, if o.2 then 1 else 0))
      = some ((outs.map Prod.fst).sum,
              (outs.map fun o => if o.2 then 1 else 0).sum) := by
  have hne : (outs.map fun o => (o.1, if o.2 then (1 : Nat) else 0)) ≠ [] := by
    simpa using h
  rw [reduceOutcomes_eq_sums _ hne, List.map_map, List.map_map]
  rfl

/-- Witness for C1 at a concrete outcome list. -/
theorem aggregate_sums_outcomes_witness :
    ([(3, false), (2, true), (4, false)] : List (Nat × Bool)) ≠ [] ∧
    reduceOutcomes
        (([(3, false), (2, true), (4, false)] : List (Nat × Bool)).map
          fun o => (o.1, if o.2 then 1 else 0))
      = some ((([(3, false), (2, true), (4, false)] : List (Nat × Bool)).map
            Prod.fst).sum,
          (([(3, false), (2, true), (4, false)] : List (Nat × Bool)).map
            fun o => if o.2 then 1 else 0).sum) :=
  ⟨by decide, aggregate_sums_outcomes [(3, false), (2, true), (4, false)]
    (by decide)⟩

/-- Claim C2: with an established connection, after any prefix of
completed round trips the counter equals the prefix length (incremented
exactly once per write-then-read round trip); if the stop flag then
reads `true` the worker returns `(counter, 0)` (failed = false); if
instead the write fails, or the write succeeds and the read fails, the
worker stops immediately and returns `(counter, 1)` (failed = true). -/
theorem worker_outcome_characterization (pre : List LoopStep) (s : LoopStep)
    (rest : List LoopStep) (hpre : ∀ x ∈ pre, goodStep x) :
    (s.stopNow = true →
      runWorker (pre ++ s :: rest) 0 = some (pre.length, 0)) ∧
    (s.stopNow = false → s.writeRes = SockResult.err →
      runWorker (pre ++ s :: rest) 0 = some (pre.length, 1)) ∧
    (s.stopNow = false → s.writeRes = SockResult.ok →
      s.readRes = SockResult.err →
      runWorker (pre ++ s :: rest) 0 = some (pre.length, 1)) := by
  have key := runWorker_append_good pre (s :: rest) 0 hpre
  rw [Nat.zero_add] at key
  refine ⟨?_, ?_, ?_⟩
  · intro h1
    rw [key]
    simp [runWorker, h1]
  · intro h1 h2
    rw [key]
    simp [runWorker, h1, h2]
  · intro h1 h2 h3
    rw [key]
    simp [runWorker, h1, h2, h3]

/-- A loop iteration completing one round trip (stop flag low, both
socket calls succeed). -/
def stepGood : LoopStep := ⟨false, SockResult.ok, SockResult.ok⟩

/-- A loop iteration whose stop-flag load returns `true`. -/
def stepStop : LoopStep := ⟨true, SockResult.ok, SockResult.ok⟩

/-- A loop iteration whose write call fails. -/
def stepWriteErr : LoopStep := ⟨false, SockResult.err, SockResult.ok⟩

/-- Witness for C2: one completed round trip followed by a stop. -/
theorem worker_outcome_characterization_witness :
    (∀ x ∈ [stepGood], goodStep x) ∧
    ((stepStop.stopNow = true →
        runWorker ([stepGood] ++ stepStop :: []) 0
          = some ([stepGood].length, 0)) ∧
     (stepStop.stopNow = false → stepStop.writeRes = SockResult.err →
        runWorker ([stepGood] ++ stepStop :: []) 0
          = some ([stepGood].length, 1)) ∧
     (stepStop.stopNow = false → stepStop.writeRes = SockResult.ok →
        stepStop.readRes = SockResult.err →
        runWorker ([stepGood] ++ stepStop :: []) 0
          = some ([stepGood].length, 1))) :=
  ⟨by decide, worker_outcome_characterization [stepGood] stepStop [] (by decide)⟩

/-- Outcomes of joined workers have error component at most one. -/
lemma runWorkerEnv_err_le_one (env : WorkerEnv) (n e : Nat)
    (h : runWorkerEnv env = some (n, e)) : e ≤ 1 := by
  unfold runWorkerEnv at h
  split at h
  · exact runWorker_err_le_one _ _ _ _ h
  · simp at h

/-- A sum of naturals each at most one is at most the number of summands. -/
lemma sum_le_length_of_le_one (l : List Nat) (h : ∀ x ∈ l, x ≤ 1) :
    l.sum ≤ l.length := by
  induction l with
  | nil => simp
  | cons x xs ih =>
    simp only [List.sum_cons, List.length_cons]
    have hx := h x (List.mem_cons_self x xs)
    have hxs := ih (fun y hy => h y (List.mem_cons_of_mem x hy))
    omega

/-- Claim C3: when the run completes, every joined worker contributes at
most one to the error total, so totalRequests ≥ 0 and totalErrors is
bounded by the number of workers. -/
theorem aggregate_bounds (outs : List (Nat × Nat))
    (hw : ∀ o ∈ outs, ∃ env, runWorkerEnv env = some o) (r e : Nat)
    (hred : reduceOutcomes outs = some (r, e)) :
    0 ≤ r ∧ e ≤ outs.length := by
  have hne : outs ≠ [] := by
    intro hnil
    rw [hnil] at hred
    simp [reduceOutcomes] at hred
  refine ⟨Nat.zero_le r, ?_⟩
  have he : e = (outs.map Prod.snd).sum := by
    have h2 := reduceOutcomes_eq_sums outs hne
    rw [hred] at h2
    exact (((Prod.mk.injEq _ _ _ _).mp (Option.some.inj h2.symm)).2).symm
  have hb : ∀ x ∈ outs.map Prod.snd, x ≤ 1 := by
    intro x hx
    obtain ⟨⟨n, y⟩, ho, hy⟩ := List.mem_map.mp hx
    obtain ⟨env, henv⟩ := hw _ ho
    subst hy
    exact runWorkerEnv_err_le_one env n y henv
  calc e = (outs.map Prod.snd).sum := he
    _ ≤ (outs.map Prod.snd).length := sum_le_length_of_le_one _ hb
    _ = outs.length := List.length_map _ _

/-- Witness for C3: two workers, one clean, one failed after zero
round trips. -/
theorem aggregate_bounds_witness :
    (∀ o ∈ ([(2, 0), (0, 1)] : List (Nat × Nat)),
      ∃ env, runWorkerEnv env = some o) ∧
    (0 ≤ 2 ∧ 1 ≤ ([(2, 0), (0, 1)] : List (Nat × Nat)).length) := by
  have hw : ∀ o ∈ ([(2, 0), (0, 1)] : List (Nat × Nat)),
      ∃ env, runWorkerEnv env = some o := by
    intro o ho
    rcases List.mem_cons.mp ho with h | h
    · exact ⟨⟨true, [stepGood, stepGood, stepStop]⟩, by subst h; decide⟩
    · rcases List.mem_cons.mp h with h2 | h2
      · exact ⟨⟨true, [stepWriteErr]⟩, by subst h2; decide⟩
      · simp at h2
  exact ⟨hw, aggregate_bounds _ hw 2 1 (by decide)⟩

/-- Claim C4: reducing the worker outcomes in any order yields the same
totals — the pairwise-sum reduction is permutation invariant. -/
theorem reduce_perm_invariant (l l' : List (Nat × Nat)) (h : l.Perm l') :
    reduceOutcomes l = reduceOutcomes l' := by
  by_cases hl : l = []
  · subst hl
    rw [h.symm.eq_nil]
  · have hl' : l' ≠ [] := by
      intro hn
      exact hl (by rw [hn] at h; exact h.eq_nil)
    rw [reduceOutcomes_eq_sums l hl, reduceOutcomes_eq_sums l' hl',
      (h.map Prod.fst).sum_eq, (h.map Prod.snd).sum_eq]

/-- Witness for C4: a two-element swap. -/
theorem reduce_perm_invariant_witness :
    ([(1, 0), (2, 1)] : List (Nat × Nat)).Perm [(2, 1), (1, 0)] ∧
    reduceOutcomes [(1, 0), (2, 1)] = reduceOutcomes [(2, 1), (1, 0)] :=
  ⟨List.Perm.swap _ _ _, reduce_perm_invariant _ _ (List.Perm.swap _ _ _)⟩

/-- Claim C5: storing `true` into the stop flag is idempotent — after
one or more triggers the flag is `true`, equal to what a single trigger
gives, and any continuation of the run computed from the flag state
(hence the final aggregate) is unchanged by the extra triggers. -/
theorem trigger_idempotent (k : Nat) (b : Bool)
    (run : Bool → Option Summary) (hk : 1 ≤ k) :
    triggerStop^[k] b = true ∧ triggerStop^[k] b = triggerStop b ∧
    run (triggerStop^[k] b) = run (triggerStop b) := by
  have h : triggerStop^[k] b = true := by
    cases k with
    | zero => omega
    | succ m => rw [Function.iterate_succ_apply']; rfl
  have h2 : triggerStop^[k] b = triggerStop b := by rw [h]; rfl
  exact ⟨h, h2, by rw [h2]⟩

/-- Witness for C5: three triggers versus one, from the initial flag. -/
theorem trigger_idempotent_witness :
    1 ≤ 3 ∧
    (triggerStop^[3] false = true ∧
     triggerStop^[3] false = triggerStop false ∧
     (fun _ => (none : Option Summary)) (triggerStop^[3] false)
       = (fun _ => (none : Option Summary)) (triggerStop false)) :=
  ⟨by decide, trigger_idempotent 3 false (fun _ => none) (by decide)⟩

/-- Claim C6: for a nonzero configured duration the summary exists and
its speed field is totalRequests divided by the configured duration
(integer division, as in the source), alongside the address, client
count, payload length, duration and error count. -/
theorem summary_fields (address : String)
    (clients payloadLen duration nReq nErr : Nat) (hd : duration ≠ 0) :
    mkSummary address clients payloadLen duration nReq nErr
      = some ⟨address, clients, payloadLen, duration, nErr,
          nReq / duration⟩ := by
  simp [mkSummary, hd]

/-- Witness for C6 at the default configuration values. -/
theorem summary_fields_witness :
    (60 : Nat) ≠ 0 ∧
    mkSummary "127.0.0.1:8901" 50 512 60 1200 0
      = some ⟨"127.0.0.1:8901", 50, 512, 60, 0, 1200 / 60⟩ :=
  ⟨by decide, summary_fields "127.0.0.1:8901" 50 512 60 1200 0 (by decide)⟩

/-- Claim C7 fails on the code: with the address flag absent the
resolved address is the fallback "127.0.0.1:8901", not the
"127.0.0.1:12345" that the claim states and the program's own help text
promises. -/
theorem default_address_mismatch :
    resolveAddress none = "127.0.0.1:8901" ∧
    resolveAddress none ≠ "127.0.0.1:12345" ∧
    addressHelpText = "Target echo server address. Default: 127.0.0.1:12345" :=
  ⟨rfl, by decide, rfl⟩

/-- Claim C8: if every worker fails at connection establishment, the
driver's join unwraps a panic, the run aborts, and no summary is
printed. -/
theorem all_connect_fail_no_summary (address : String)
    (payloadLen duration : Nat) (envs : List WorkerEnv)
    (hfail : ∀ env ∈ envs, env.connectOk = false) :
    runBench address payloadLen duration envs = none := by
  cases envs with
  | nil => rfl
  | cons env rest =>
    have h1 : runWorkerEnv env = none := by
      unfold runWorkerEnv
      rw [hfail env (List.mem_cons_self _ _)]
      simp
    simp [runBench, joinAll, h1]

/-- Witness for C8: one worker whose connect fails. -/
theorem all_connect_fail_no_summary_witness :
    (∀ env ∈ [WorkerEnv.mk false []], env.connectOk = false) ∧
    runBench "127.0.0.1:8901" 512 60 [WorkerEnv.mk false []] = none :=
  ⟨by decide,
    all_connect_fail_no_summary "127.0.0.1:8901" 512 60 [WorkerEnv.mk false []]
      (by decide)⟩

/-- For a positive length the payload is the zero bytes followed by one
newline byte. -/
lemma payload_succ (n : Nat) :
    payload (n + 1) = List.replicate n 0 ++ [10] := by
  induction n with
  | zero => rfl
  | succ m ih =>
    show (List.replicate (m + 2) 0).set (m + 1) 10 = _
    rw [List.replicate_succ]
    show 0 :: (List.replicate (m + 1) 0).set m 10 = _
    have h : (List.replicate (m + 1) 0).set m 10
        = List.replicate m 0 ++ [10] := ih
    rw [h, List.replicate_succ, List.cons_append]

/-- Claim C9: for payloadLength ≥ 1 the payload is exactly payloadLength
bytes, its final byte is the newline byte 10, every earlier byte is
zero; a successful write sends exactly payloadLength bytes and a
successful read receives exactly payloadLength bytes, a shorter reply
being an error rather than a partial success. -/
theorem payload_and_roundtrip (l i cap avail n : Nat) (hl : 1 ≤ l) :
    (payload l).length = l ∧
    (payload l).getLast? = some 10 ∧
    (i + 1 < l → (payload l)[i]? = some 0) ∧
    (writeAll cap (payload l) = some n → n = l) ∧
    (readExact avail l = some n → n = l) ∧
    (avail < l → readExact avail l = none) := by
  obtain ⟨m, rfl⟩ : ∃ m, l = m + 1 := ⟨l - 1, by omega⟩
  rw [payload_succ]
  refine ⟨by simp, ?_, ?_, ?_, ?_, ?_⟩
  · rw [List.getLast?_concat]
  · intro hi
    have him : i < m := by omega
    rw [List.getElem?_append, if_pos (by simpa using him),
      List.getElem?_replicate, if_pos him]
  · intro h
    unfold writeAll at h
    split at h
    · have := Option.some.inj h
      simp at this
      omega
    · cases h
  · intro h
    unfold readExact at h
    split at h
    · exact (Option.some.inj h).symm
    · cases h
  · intro h
    unfold readExact
    rw [if_neg (by omega)]

/-- Witness for C9 at payload length 3. -/
theorem payload_and_roundtrip_witness :
    1 ≤ 3 ∧
    ((payload 3).length = 3 ∧
     (payload 3).getLast? = some 10 ∧
     (0 + 1 < 3 → (payload 3)[0]? = some 0) ∧
     (writeAll 3 (payload 3) = some 3 → 3 = 3) ∧
     (readExact 3 3 = some 3 → 3 = 3) ∧
     (3 < 3 → readExact 3 3 = none)) :=
  ⟨by decide, payload_and_roundtrip 3 0 3 3 3 (by decide)⟩

/-- Claim C10: a duration argument of "0" parses successfully (the
fallback 60 is not used), and the reporting step's u64 division by zero
then panics, so no summary exists for duration 0. -/
theorem zero_duration_no_summary :
    resolveDuration (some "0") = 0 ∧
    ∀ (address : String) (clients payloadLen nReq nErr : Nat),
      mkSummary address clients payloadLen 0 nReq nErr = none := by
  refine ⟨by decide, ?_⟩
  intro address clients payloadLen nReq nErr
  rfl
